import Mathlib

/-!
# Verification of the deployd session layer (`lib/session.js`)

A shallow embedding of the session/connection binding layer: the session and
user indexes, the socket binding queue, and the session lifecycle
(`createSession` / `save` / `fetch` / `remove`) together with the eviction
sweep (`cleanupInactiveSessions`).

Modelling conventions:
* JavaScript objects are association lists `List (String × JsVal)` with
  first-occurrence lookup; property deletion removes the key, assignment
  replaces the first occurrence in place (JS objects have unique keys, so
  both agree with JS semantics on well-formed objects).
* JS truthiness and the JS comparison `x < n` (which is `false` whenever `x`
  is `undefined`, because the comparison goes through `NaN`) are modelled
  explicitly by `truthy` and `jsLt`.
* A JS property access with a possibly-`undefined` key coerces the key to the
  string `"undefined"`; `undefKey` models this coercion.
* Asynchronous store callbacks are run synchronously, in program order; this
  matches the single-threaded execution model of the source (spec §5), where
  each flow's steps run in the stated order between suspension points.
* The PersistentStore itself lives in `lib/db.js`, outside the verified
  sources; its operations (`find`/`first`/`insert`/`remove` with equality,
  `$lt`, `$exists` and `$or` queries) are modelled from the spec's external
  contract (§4.1/§6).
* `crypto.randomBytes(64).toString('hex')` is modelled by a counter-indexed
  supply of opaque, pairwise-distinct, nonempty identifier strings.
-/

/-- A JavaScript value as it occurs in session records and indexes. -/
inductive JsVal where
  | bool (b : Bool)
  | num (n : Int)
  | str (s : String)
  deriving DecidableEq, Repr

/-- JS truthiness of a defined value. -/
def truthyV : JsVal → Bool
  | .bool b => b
  | .num n => n != 0
  | .str s => s != ""

/-- JS truthiness of a possibly-`undefined` value (`none` = `undefined`). -/
def truthy : Option JsVal → Bool
  | none => false
  | some v => truthyV v

/-- JS coercion of a value to a property key. -/
def jsKey : JsVal → String
  | .str s => s
  | .num n => toString n
  | .bool b => if b then "true" else "false"

/-- JS coercion of a possibly-`undefined` value to a property key:
`obj[undefined]` reads the key `"undefined"`. -/
def undefKey : Option JsVal → String
  | some v => jsKey v
  | none => "undefined"

/-- The JS comparison `x < n` for a possibly-`undefined` `x` against a number:
`undefined < n` is `false` (it compares via `NaN`), and the values compared
here (`lastActive` timestamps) are numbers whenever present. -/
def jsLt (x : Option JsVal) (n : Int) : Bool :=
  match x with
  | some (.num a) => a < n
  | _ => false

/-- First-occurrence lookup in an association list (a JS object read). -/
def alGet {κ : Type} {α : Type} [DecidableEq κ] : List (κ × α) → κ → Option α
  | [], _ => none
  | (k', v) :: rest, k => if k' = k then some v else alGet rest k

/-- In-place update of the first occurrence, or append (a JS object write). -/
def alSet {κ : Type} {α : Type} [DecidableEq κ] : List (κ × α) → κ → α → List (κ × α)
  | [], k, v => [(k, v)]
  | (k', v') :: rest, k, v =>
      if k' = k then (k, v) :: rest else (k', v') :: alSet rest k v

/-- Key deletion (the JS `delete` operator). -/
def alDel {κ : Type} {α : Type} [DecidableEq κ] (l : List (κ × α)) (k : κ) : List (κ × α) :=
  l.filter (fun p => p.1 ≠ k)

/-- A JavaScript object: ordered fields with unique keys. -/
abbrev Obj := List (String × JsVal)

/-- `Session.prototype.set` (session.js:242-250): copy every field of `patch`
into `data`, last write wins per field, leaving other fields untouched. -/
def Session.set (data patch : Obj) : Obj :=
  patch.foldl (fun acc kv => alSet acc kv.1 kv.2) data

/-- `SessionStore.prototype.createUniqueIdentifier` (session.js:77-79):
`crypto.randomBytes(64).toString('hex')`, an opaque fresh token. Modelled as
a counter-indexed supply of pairwise-distinct nonempty strings. -/
def SessionStore.createUniqueIdentifier (n : Nat) : String :=
  String.mk (List.replicate (n + 1) 'g')

/-- A condition on one field of a store query (§4.1: equality, `$lt`,
`$exists`). -/
inductive Cond where
  | eqv (v : JsVal)
  | lt (v : JsVal)
  | existsF (b : Bool)
  deriving DecidableEq, Repr

/-- A store query: a conjunction of field conditions, or an `$or` of two
queries (§4.1/§6 external contract). -/
inductive Query where
  | fields (conds : List (String × Cond))
  | orq (q1 q2 : Query)
  deriving DecidableEq, Repr

/-- Whether one field value satisfies a condition. `$lt` only matches numbers
(as in the store contract, where `lastActive` comparisons are numeric);
`$exists` tests field presence. -/
def matchCond (fv : Option JsVal) : Cond → Bool
  | .eqv v => fv = some v
  | .lt v =>
      match fv, v with
      | some (.num a), .num b => a < b
      | _, _ => false
  | .existsF b => fv.isSome = b

/-- Whether a record matches a query. -/
def matchQ : Query → Obj → Bool
  | .fields cs, r => cs.all (fun kc => matchCond (alGet r kc.1) kc.2)
  | .orq a b, r => matchQ a r || matchQ b r

/-- The query `{id: v}` used by `save` and `remove`. -/
def idQuery (v : JsVal) : Query := .fields [("id", Cond.eqv v)]

/-- The eviction query of `cleanupInactiveSessions` (session.js:64-68):
`{$or: [{lastActive: {$lt: now - maxAge}}, {lastActive: {$exists: false}}]}`. -/
def cleanupQuery (now maxAge : Int) : Query :=
  .orq (.fields [("lastActive", Cond.lt (.num (now - maxAge)))])
       (.fields [("lastActive", Cond.existsF false)])

/-- The per-Session runtime state created by the `Session` constructor
(session.js:157-233). `ctorSid` is the constructor-local `var sid` captured
by the socket-wrapper closures (it is never reassigned afterwards); `sidProp`
is the `this.sid` property (which `save` later overwrites); `bindQueue` and
`emitQueue` are the wrapper's `_bindQueue` / `_emitQueue`; `armed` records
whether the one-shot `socketQueue.once(this.sid, ...)` listener registered by
the constructor is still pending. -/
structure SessState where
  data : Obj
  ctorSid : Option JsVal
  sidProp : Option JsVal
  bindQueue : List (List JsVal)
  emitQueue : List (List JsVal)
  armed : Bool
  deriving DecidableEq, Repr

/-- The process-wide state: the module-level `sessionIndex` and
`userSessionIndex` (session.js:14-15), the store's `socketIndex`
(session.js:30), the live `Session` objects (`heap`, keyed by an allocation
counter that stands for JS object identity), the identifier supply counter,
the persistent store's records, the configured `maxAge`
(session.js:26, default 30 days), the sweep's `lastRun` timestamp
(session.js:74) and the `console.error` log. -/
structure World where
  sessionIndex : List (String × Nat)
  userSessionIndex : List (String × Nat)
  socketIndex : List (String × Nat)
  heap : List (Nat × SessState)
  nextObj : Nat
  nextGen : Nat
  store : List Obj
  maxAge : Int
  lastRun : Option Int
  log : List String
  deriving DecidableEq, Repr

/-- The default `maxAge` (session.js:26): 30 days in milliseconds. -/
def defaultMaxAge : Int := 30 * 24 * 60 * 60 * 1000

/-- A store operation issued during a flow, in issue order. -/
inductive StoreOp where
  | find (idv : JsVal)
  | first (idv : Option JsVal)
  | insert (r : Obj)
  | removeQ (q : Query)
  deriving DecidableEq, Repr

/-- An event delivered to a live socket, in delivery order. -/
inductive Delivery where
  | onEv (sock : Nat) (args : List JsVal)
  | emitEv (sock : Nat) (args : List JsVal)
  deriving DecidableEq, Repr

/-- Modelled from the spec: the PersistentStore's lookup of the single record
matching `{id: idv}` (§4.1/§6 `first(query) → record|null`; §4.4 "looks up
the record by id"). The store engine itself (`lib/db.js`) is outside the
verified sources. -/
def storeFirstBy (w : World) (idv : Option JsVal) : Option Obj :=
  w.store.find? (fun r => alGet r "id" = idv)

/-- The in-memory `data` of the session object `oid` (empty if the reference
is dangling, which never happens along the verified flows). -/
def sessData (w : World) (oid : Nat) : Obj :=
  match alGet w.heap oid with
  | some st => st.data
  | none => []

/-- `SessionStore.prototype.getSession` (session.js:136-138): pure cache
lookup `userSessionIndex[uid]`. -/
def SessionStore.getSession (w : World) (uid : String) : Option Nat :=
  alGet w.userSessionIndex uid

/-- `Session.prototype.isAnonymous` (session.js:304-306): returns
`this.data.anonymous` (the raw value; callers test its truthiness). -/
def Session.isAnonymous (w : World) (oid : Nat) : Option JsVal :=
  alGet (sessData w oid) "anonymous"

/-- The `Session` constructor (session.js:157-233): clone the data, default
`createdOn` and `lastActive` to `now` when falsy, capture `sid = data.id`
when truthy, start with empty wrapper queues, and register the one-shot
`socketQueue.once(this.sid, ...)` listener (`armed`). -/
def Session.new (data : Obj) (now : Int) : SessState :=
  let d := data
  let d := if truthy (alGet d "createdOn") then d else alSet d "createdOn" (.num now)
  let d := if truthy (alGet d "lastActive") then d else alSet d "lastActive" (.num now)
  let sid := if truthy (alGet data "id") then alGet data "id" else none
  { data := d, ctorSid := sid, sidProp := sid,
    bindQueue := [], emitQueue := [], armed := true }

/-- Allocate a fresh `Session` object on the heap (JS `new Session(...)`). -/
def allocSession (w : World) (data : Obj) (now : Int) : World × Nat :=
  ({ w with heap := w.heap ++ [(w.nextObj, Session.new data now)],
            nextObj := w.nextObj + 1 },
   w.nextObj)

/-- `Session.prototype.remove` (session.js:315-333) with explicit target
`data`: if `data.id` is falsy, the callback fires at once with no error and
nothing else happens; otherwise delete `sessionIndex[data.id]`,
`userSessionIndex[data.uid]` (unconditionally, by uid value — `data.uid` may
be `undefined`, in which case the coerced key `"undefined"` is deleted),
`socketIndex[data.id]`, and issue `store.remove({id: data.id})`. Returns the
new world, the callback's error argument, and the store ops issued. -/
def Session.remove (w : World) (data : Obj) : World × Option String × List StoreOp :=
  match alGet data "id" with
  | none => (w, none, [])
  | some idv =>
    if truthyV idv then
      let w' := { w with
        sessionIndex := alDel w.sessionIndex (jsKey idv),
        userSessionIndex := alDel w.userSessionIndex (undefKey (alGet data "uid")),
        socketIndex := alDel w.socketIndex (jsKey idv),
        store := w.store.filter (fun r => !matchQ (idQuery idv) r) }
      (w', none, [StoreOp.removeQ (idQuery idv)])
    else (w, none, [])

/-- `Session.prototype.save` (session.js:259-282): clone the data; if it is
anonymous, delete the `anonymous` flag and assign `var sid = data.id = <fresh
id>` (note: `sid` is hoisted and assigned only in this branch, so it stays
`undefined` for a non-anonymous save); run `session.remove(data, ...)`; then
`store.insert(data, ...)`, whose stored record comes back as `res`; on
success set `session.data = res`, `sessionIndex[sid] = session` (key
`"undefined"` when `sid` was never assigned), `userSessionIndex[res.uid] =
session` when `res.uid` is truthy, and `session.sid = res.id`; finally call
back with the record. -/
def Session.save (w : World) (oid : Nat) : World × Except String Obj × List StoreOp :=
  match alGet w.heap oid with
  | none => (w, .error "no such session object", [])
  | some st =>
    let data0 := st.data
    let anon := truthy (alGet data0 "anonymous")
    let newId := SessionStore.createUniqueIdentifier w.nextGen
    let data := if anon then alSet (alDel data0 "anonymous") "id" (.str newId) else data0
    let sidLocal : Option JsVal := if anon then some (.str newId) else none
    let w := if anon then { w with nextGen := w.nextGen + 1 } else w
    let (w, _remErr, remOps) := Session.remove w data
    let res := data
    let w := { w with store := w.store ++ [data] }
    let st' := { st with data := res, sidProp := alGet res "id" }
    let w := { w with heap := alSet w.heap oid st',
                      sessionIndex := alSet w.sessionIndex (undefKey sidLocal) oid }
    let w := if truthy (alGet res "uid")
             then { w with userSessionIndex :=
                             alSet w.userSessionIndex (undefKey (alGet res "uid")) oid }
             else w
    (w, .ok res, remOps ++ [StoreOp.insert res])

/-- The outcome of `Session.prototype.fetch` (session.js:291-298) given the
store's response to `first({id: this.data.id})`: on a record, `session.set`
merges it and the callback receives `(null, record)`; when the store yields
no record or reports an error (per the §4.1/§6 contract an error carries no
record), `session.set(data)` runs `Object.keys` on `null`/`undefined` and
throws a `TypeError` before the callback is reached. -/
inductive JsError where
  | typeError
  deriving DecidableEq, Repr

/-- `Session.prototype.fetch` (session.js:291-298), parameterised by the
store's response: `.ok (merged data, callback error argument, callback data
argument)` when the callback fires, `.error .typeError` when `session.set`
throws first. -/
def Session.fetchWith (d : Obj) (res : Except String (Option Obj)) :
    Except JsError (Obj × Option String × Obj) :=
  match res with
  | .ok (some rec) => .ok (Session.set d rec, none, rec)
  | .ok none => .error JsError.typeError
  | .error _ => .error JsError.typeError

/-- `SessionStore.prototype.cleanupInactiveSessions` (session.js:63-75):
issue one store delete with `cleanupQuery`; an error from the delete is only
appended to the log (`console.error`), never raised; the sweep's `lastRun`
timestamp is set to `now` unconditionally. `removeErr` injects the store's
reported error, `none` meaning the delete succeeded and removed exactly the
matching records. -/
def SessionStore.cleanupInactiveSessions (w : World) (now : Int)
    (removeErr : Option String) : World × List StoreOp :=
  let q := cleanupQuery now w.maxAge
  let w :=
    match removeErr with
    | some e => { w with log := w.log ++ ["Error removing old sessions: " ++ e] }
    | none => { w with store := w.store.filter (fun r => !matchQ q r) }
  ({ w with lastRun := some now }, [StoreOp.removeQ q])

/-- The opportunistic sweep trigger at the end of `createSession`
(session.js:124-128): the sweep is scheduled on a later tick exactly when
`lastRun < now - 60*1000` (false when `lastRun` is still `undefined`, by JS
comparison semantics). The sweep itself is `cleanupInactiveSessions`. -/
def SessionStore.sweepDue (w : World) (now : Int) : Bool :=
  match w.lastRun with
  | some t => t < now - 60 * 1000
  | none => false

/-- The socket wrapper's `on` (session.js:168-178): look up `sockets[sid]`
with the constructor-captured `sid`; if a live socket is indexed there,
forward directly; otherwise append the call's arguments to `_bindQueue`. -/
def socketWrapperOn (w : World) (oid : Nat) (args : List JsVal) : World × List Delivery :=
  match alGet w.heap oid with
  | none => (w, [])
  | some st =>
    match alGet w.socketIndex (undefKey st.ctorSid) with
    | some sock => (w, [Delivery.onEv sock args])
    | none =>
      let st' := { st with bindQueue := st.bindQueue ++ [args] }
      ({ w with heap := alSet w.heap oid st' }, [])

/-- The socket wrapper's `emit` (session.js:179-190): same shape as `on`,
buffering into `_emitQueue`. -/
def socketWrapperEmit (w : World) (oid : Nat) (args : List JsVal) : World × List Delivery :=
  match alGet w.heap oid with
  | none => (w, [])
  | some st =>
    match alGet w.socketIndex (undefKey st.ctorSid) with
    | some sock => (w, [Delivery.emitEv sock args])
    | none =>
      let st' := { st with emitQueue := st.emitQueue ++ [args] }
      ({ w with heap := alSet w.heap oid st' }, [])

/-- The drain performed by `socketQueue.emit(sid, socket)`: every still-armed
one-shot listener whose registered event key matches `sid` fires, in
registration (heap) order; each replays its `_bindQueue` through `socket.on`
and then its `_emitQueue` through `socket.emit` (session.js:219-232); the
`once` listener is then gone (`armed := false`). The queues themselves are
not cleared by the source, and are kept as they are here too. -/
def drainHeap (sid : String) (sock : Nat) :
    List (Nat × SessState) → List (Nat × SessState) × List Delivery
  | [] => ([], [])
  | (oid, st) :: rest =>
    let (rest', ds) := drainHeap sid sock rest
    if st.armed && undefKey st.ctorSid == sid then
      ((oid, { st with armed := false }) :: rest',
       (st.bindQueue.map (fun a => Delivery.onEv sock a)
         ++ st.emitQueue.map (fun a => Delivery.emitEv sock a)) ++ ds)
    else ((oid, st) :: rest', ds)

/-- The registry's `connection` handler (session.js:36-47): read the `sid`
cookie (an absent cookie is modelled by `""`, which is falsy); when truthy,
set `socketIndex[sid] = socket` and then `socketQueue.emit(sid, socket)`,
which fires the pending one-shot listeners for that id. Returns the new
world and the events delivered to the socket, in order. -/
def connectionArrives (w : World) (sid : String) (sock : Nat) : World × List Delivery :=
  if sid == "" then (w, [])
  else
    let w := { w with socketIndex := alSet w.socketIndex sid sock }
    let (heap', ds) := drainHeap sid sock w.heap
    ({ w with heap := heap' }, ds)

/-- `SessionStore.prototype.createSession` with a truthy `sid`
(session.js:96-118): `find({id: sid})`; if there is no record or its
`lastActive` compares less than `now - maxAge` (a JS `<`, so false when
`lastActive` is missing), replace it by `{anonymous: true}` and set `sid =
null`; reuse `sessionIndex[sid]` (the key is `"null"` after demotion) or
construct a new `Session`; re-register `sessionIndex[sid]` when `sid` is
still truthy and `userSessionIndex[s.uid]` when the record has a truthy
`uid`; finally, when the session is not anonymous and its `lastActive` is
falsy or older than 10 seconds, set `lastActive = now` and `save` before the
callback fires, else fire the callback at once. Returns the new world, the
callback's result (the session object), and the store ops issued by this
flow. (The opportunistic sweep trigger, session.js:124-128, runs on a later
tick; see `SessionStore.sweepDue`.) -/
def createSessionWith (w : World) (now : Int) (sid : String) :
    World × Except String Nat × List StoreOp :=
  let findOps := [StoreOp.find (.str sid)]
  let s? := storeFirstBy w (some (.str sid))
  let (s, sidOpt) :=
    match s? with
    | none => ([("anonymous", JsVal.bool true)], none)
    | some r =>
      if jsLt (alGet r "lastActive") (now - w.maxAge)
      then ([("anonymous", JsVal.bool true)], none)
      else (r, some sid)
  let lookupKey := match sidOpt with
    | some s' => s'
    | none => "null"
  let (w, oid) :=
    match alGet w.sessionIndex lookupKey with
    | some oid => (w, oid)
    | none => allocSession w s now
  let w :=
    match sidOpt with
    | some s' => { w with sessionIndex := alSet w.sessionIndex s' oid }
    | none => w
  let w := if truthy (alGet s "uid")
           then { w with userSessionIndex :=
                           alSet w.userSessionIndex (undefKey (alGet s "uid")) oid }
           else w
  match alGet w.heap oid with
  | none => (w, .error "dangling session reference", findOps)
  | some st =>
    if !truthy (alGet st.data "anonymous")
        && (!truthy (alGet st.data "lastActive")
             || jsLt (alGet st.data "lastActive") (now - 10 * 1000)) then
      let st' := { st with data := alSet st.data "lastActive" (.num now) }
      let w := { w with heap := alSet w.heap oid st' }
      let (w, _saveRes, saveOps) := Session.save w oid
      (w, .ok oid, findOps ++ saveOps)
    else (w, .ok oid, findOps)

/-- `createSession` with no (or a falsy) `sid` (session.js:119-121): the
callback immediately receives a fresh anonymous `Session`, with no store
round-trip. -/
def createSessionAnon (w : World) (now : Int) : World × Except String Nat × List StoreOp :=
  let (w', oid) := allocSession w [("anonymous", JsVal.bool true)] now
  (w', .ok oid, [])

/-- `SessionStore.prototype.createSession` (session.js:88-129): dispatch on
the presence and truthiness of `sid`. -/
def SessionStore.createSession (w : World) (now : Int) (sid? : Option String) :
    World × Except String Nat × List StoreOp :=
  match sid? with
  | some sid => if sid == "" then createSessionAnon w now else createSessionWith w now sid
  | none => createSessionAnon w now

section AssocLemmas

variable {κ α : Type} [DecidableEq κ]

@[simp]
theorem alGet_alSet_self (l : List (κ × α)) (k : κ) (v : α) :
    alGet (alSet l k v) k = some v := by
  induction l with
  | nil => simp [alGet, alSet]
  | cons p rest ih =>
    obtain ⟨k', v'⟩ := p
    by_cases h : k' = k
    · simp [alSet, alGet, h]
    · simp [alSet, alGet, h, ih]

theorem alGet_alSet_ne (l : List (κ × α)) (k k' : κ) (v : α) (h : k ≠ k') :
    alGet (alSet l k v) k' = alGet l k' := by
  induction l with
  | nil => simp [alGet, alSet, h]
  | cons p rest ih =>
    obtain ⟨k₀, v₀⟩ := p
    by_cases h₀ : k₀ = k
    · subst h₀
      simp [alSet, alGet, h]
    · simp [alSet, alGet, h₀, ih]

@[simp]
theorem alGet_alDel_self (l : List (κ × α)) (k : κ) :
    alGet (alDel l k) k = none := by
  induction l with
  | nil => simp [alGet, alDel]
  | cons p rest ih =>
    obtain ⟨k₀, v₀⟩ := p
    by_cases h₀ : k₀ = k
    · simpa [alDel, h₀] using ih
    · simpa [alDel, alGet, h₀] using ih

theorem alGet_alDel_ne (l : List (κ × α)) (k k' : κ) (h : k ≠ k') :
    alGet (alDel l k) k' = alGet l k' := by
  induction l with
  | nil => simp [alGet, alDel]
  | cons p rest ih =>
    obtain ⟨k₀, v₀⟩ := p
    by_cases h₀ : k₀ = k
    · subst h₀
      have hne : ¬ (k₀ = k') := fun hc => h hc
      simpa [alDel, List.filter_cons, alGet, hne] using ih
    · by_cases h₁ : k₀ = k'
      · subst h₁
        simp [alDel, List.filter_cons, alGet, h₀]
      · simp only [alDel, List.filter_cons] at *
        simpa [alGet, h₀, h₁] using ih

theorem alGet_eq_none_of_not_mem_keys (l : List (κ × α)) (k : κ)
    (h : k ∉ l.map Prod.fst) : alGet l k = none := by
  induction l with
  | nil => rfl
  | cons p rest ih =>
    obtain ⟨k₀, v₀⟩ := p
    simp only [List.map_cons, List.mem_cons] at h
    push_neg at h
    have hne : ¬ (k₀ = k) := fun hc => h.1 hc.symm
    simp [alGet, hne, ih h.2]

theorem find?_filter_neg {β : Type} (l : List β) (p : β → Bool) :
    (l.filter fun a => !p a).find? p = none := by
  induction l with
  | nil => rfl
  | cons a rest ih =>
    by_cases h : p a
    · simp [List.filter, h, ih]
    · simp only [List.filter, h]
      simp only [Bool.not_false, List.find?]
      simp [h, ih]

end AssocLemmas

/-- Fields absent from the patch are untouched by `Session.set`. -/
theorem Session.set_keeps (d patch : Obj) (k : String) (h : alGet patch k = none) :
    alGet (Session.set d patch) k = alGet d k := by
  induction patch generalizing d with
  | nil => rfl
  | cons p rest ih =>
    obtain ⟨k₀, v₀⟩ := p
    simp only [alGet] at h
    by_cases h₀ : k₀ = k
    · simp [h₀] at h
    · simp only [h₀, if_false] at h
      simp only [Session.set, List.foldl] at *
      rw [ih (alSet d k₀ v₀) h, alGet_alSet_ne _ _ _ _ h₀]

/-- Fields present in the patch take the patch's value after `Session.set`
(for a well-formed patch, i.e. one with unique keys, as every JS object
has). -/
theorem Session.set_overrides (d patch : Obj) (k : String) (v : JsVal)
    (hnd : (patch.map Prod.fst).Nodup) (h : alGet patch k = some v) :
    alGet (Session.set d patch) k = some v := by
  induction patch generalizing d with
  | nil => simp [alGet] at h
  | cons p rest ih =>
    obtain ⟨k₀, v₀⟩ := p
    simp only [List.map_cons, List.nodup_cons] at hnd
    by_cases h₀ : k₀ = k
    · subst h₀
      have hv : v₀ = v := by simpa [alGet] using h
      have hrest : alGet rest k₀ = none :=
        alGet_eq_none_of_not_mem_keys rest k₀ hnd.1
      show alGet (Session.set (alSet d k₀ v₀) rest) k₀ = some v
      rw [Session.set_keeps _ _ _ hrest, alGet_alSet_self, hv]
    · have h' : alGet rest k = some v := by simpa [alGet, h₀] using h
      show alGet (Session.set (alSet d k₀ v₀) rest) k = some v
      exact ih (alSet d k₀ v₀) hnd.2 h'

/-- Distinct counter values give distinct generated identifiers. -/
theorem SessionStore.createUniqueIdentifier_inj (m n : Nat) (h : m ≠ n) :
    SessionStore.createUniqueIdentifier m ≠ SessionStore.createUniqueIdentifier n := by
  intro hc
  have hlen := congrArg String.length hc
  simp [SessionStore.createUniqueIdentifier, String.length] at hlen
  exact h hlen

/-- Looking up a key appended at the end, when the key is not in the front. -/
theorem alGet_append_of_none {κ α : Type} [DecidableEq κ]
    (l : List (κ × α)) (k : κ) (v : α) (h : alGet l k = none) :
    alGet (l ++ [(k, v)]) k = some v := by
  induction l with
  | nil => simp [alGet]
  | cons p rest ih =>
    obtain ⟨k₀, v₀⟩ := p
    by_cases h₀ : k₀ = k
    · simp [alGet, h₀] at h
    · simp only [alGet, h₀, if_false] at h
      simpa [alGet, h₀] using ih h

/-- Generated identifiers are nonempty (hence truthy as JS strings). -/
theorem SessionStore.createUniqueIdentifier_ne_empty (n : Nat) :
    SessionStore.createUniqueIdentifier n ≠ "" := by
  intro h
  have := congrArg String.length h
  simp [SessionStore.createUniqueIdentifier, String.length] at this

/-- C9: a `remove` whose target data has no (truthy) `id` fires the callback
immediately with no error, touches no index, and issues no store operation:
the world is returned unchanged (session.js:320-322). -/
theorem session_remove_no_id_noop (w : World) (data : Obj)
    (h : truthy (alGet data "id") = false) :
    Session.remove w data = (w, none, []) := by
  cases hid : alGet data "id" with
  | none => simp [Session.remove, hid]
  | some v =>
    have hv : truthyV v = false := by simpa [truthy, hid] using h
    simp [Session.remove, hid, hv]

/-- C9 witness: a concrete no-id target. -/
theorem session_remove_no_id_noop_witness :
    Session.remove
      { sessionIndex := [("abc", 0)], userSessionIndex := [("u1", 0)],
        socketIndex := [("abc", 7)], heap := [], nextObj := 1, nextGen := 0,
        store := [[("id", JsVal.str "abc")]], maxAge := defaultMaxAge,
        lastRun := none, log := [] }
      [("uid", JsVal.str "u1")]
    = ({ sessionIndex := [("abc", 0)], userSessionIndex := [("u1", 0)],
         socketIndex := [("abc", 7)], heap := [], nextObj := 1, nextGen := 0,
         store := [[("id", JsVal.str "abc")]], maxAge := defaultMaxAge,
         lastRun := none, log := [] }, none, []) :=
  session_remove_no_id_noop _ _ (by decide)

/-- C6: a `remove` whose target data has a truthy `id` deletes the
session-index entry for that id, the user-index entry for the target's `uid`
(unconditionally, whatever session object it pointed at), and the
socket-index entry for the id, and deletes every record with that id from
the store; afterwards `getSession(uid)` returns nothing and a store lookup
by that id returns nothing (session.js:315-333). -/
theorem session_remove_purges (w : World) (data : Obj) (idv u : JsVal)
    (hid : alGet data "id" = some idv) (hidt : truthyV idv = true)
    (huid : alGet data "uid" = some u) :
    (Session.remove w data).2.1 = none ∧
    (Session.remove w data).2.2 = [StoreOp.removeQ (idQuery idv)] ∧
    alGet (Session.remove w data).1.sessionIndex (jsKey idv) = none ∧
    alGet (Session.remove w data).1.userSessionIndex (jsKey u) = none ∧
    alGet (Session.remove w data).1.socketIndex (jsKey idv) = none ∧
    SessionStore.getSession (Session.remove w data).1 (jsKey u) = none ∧
    storeFirstBy (Session.remove w data).1 (some idv) = none := by
  have hw : Session.remove w data =
      ({ w with
          sessionIndex := alDel w.sessionIndex (jsKey idv),
          userSessionIndex := alDel w.userSessionIndex (undefKey (alGet data "uid")),
          socketIndex := alDel w.socketIndex (jsKey idv),
          store := w.store.filter (fun r => !matchQ (idQuery idv) r) },
        none, [StoreOp.removeQ (idQuery idv)]) := by
    simp [Session.remove, hid, hidt]
  rw [hw]
  refine ⟨rfl, rfl, alGet_alDel_self _ _, ?_, alGet_alDel_self _ _, ?_, ?_⟩
  · simp only [huid, undefKey]
    exact alGet_alDel_self _ _
  · simp only [SessionStore.getSession, huid, undefKey]
    exact alGet_alDel_self _ _
  · show (w.store.filter (fun r => !matchQ (idQuery idv) r)).find?
      (fun r => alGet r "id" = some idv) = none
    have hfun : ∀ r : Obj, matchQ (idQuery idv) r = decide (alGet r "id" = some idv) := by
      intro r
      simp [matchQ, idQuery, matchCond]
    simp only [hfun]
    exact find?_filter_neg _ _

/-- C6 witness: removing `{id: 'abc', uid: 'u1'}` while the user-index entry
for `u1` points at a *different* session object (42) still purges it. -/
theorem session_remove_purges_witness :
    (Session.remove
      { sessionIndex := [("abc", 0)], userSessionIndex := [("u1", 42)],
        socketIndex := [("abc", 7)], heap := [], nextObj := 1, nextGen := 0,
        store := [[("id", JsVal.str "abc"), ("uid", JsVal.str "u1")]],
        maxAge := defaultMaxAge, lastRun := none, log := [] }
      [("id", JsVal.str "abc"), ("uid", JsVal.str "u1")]).2.1 = none ∧
    (Session.remove
      { sessionIndex := [("abc", 0)], userSessionIndex := [("u1", 42)],
        socketIndex := [("abc", 7)], heap := [], nextObj := 1, nextGen := 0,
        store := [[("id", JsVal.str "abc"), ("uid", JsVal.str "u1")]],
        maxAge := defaultMaxAge, lastRun := none, log := [] }
      [("id", JsVal.str "abc"), ("uid", JsVal.str "u1")]).2.2
      = [StoreOp.removeQ (idQuery (JsVal.str "abc"))] ∧
    alGet (Session.remove
      { sessionIndex := [("abc", 0)], userSessionIndex := [("u1", 42)],
        socketIndex := [("abc", 7)], heap := [], nextObj := 1, nextGen := 0,
        store := [[("id", JsVal.str "abc"), ("uid", JsVal.str "u1")]],
        maxAge := defaultMaxAge, lastRun := none, log := [] }
      [("id", JsVal.str "abc"), ("uid", JsVal.str "u1")]).1.sessionIndex "abc" = none ∧
    alGet (Session.remove
      { sessionIndex := [("abc", 0)], userSessionIndex := [("u1", 42)],
        socketIndex := [("abc", 7)], heap := [], nextObj := 1, nextGen := 0,
        store := [[("id", JsVal.str "abc"), ("uid", JsVal.str "u1")]],
        maxAge := defaultMaxAge, lastRun := none, log := [] }
      [("id", JsVal.str "abc"), ("uid", JsVal.str "u1")]).1.userSessionIndex "u1" = none ∧
    alGet (Session.remove
      { sessionIndex := [("abc", 0)], userSessionIndex := [("u1", 42)],
        socketIndex := [("abc", 7)], heap := [], nextObj := 1, nextGen := 0,
        store := [[("id", JsVal.str "abc"), ("uid", JsVal.str "u1")]],
        maxAge := defaultMaxAge, lastRun := none, log := [] }
      [("id", JsVal.str "abc"), ("uid", JsVal.str "u1")]).1.socketIndex "abc" = none ∧
    SessionStore.getSession (Session.remove
      { sessionIndex := [("abc", 0)], userSessionIndex := [("u1", 42)],
        socketIndex := [("abc", 7)], heap := [], nextObj := 1, nextGen := 0,
        store := [[("id", JsVal.str "abc"), ("uid", JsVal.str "u1")]],
        maxAge := defaultMaxAge, lastRun := none, log := [] }
      [("id", JsVal.str "abc"), ("uid", JsVal.str "u1")]).1 "u1" = none ∧
    storeFirstBy (Session.remove
      { sessionIndex := [("abc", 0)], userSessionIndex := [("u1", 42)],
        socketIndex := [("abc", 7)], heap := [], nextObj := 1, nextGen := 0,
        store := [[("id", JsVal.str "abc"), ("uid", JsVal.str "u1")]],
        maxAge := defaultMaxAge, lastRun := none, log := [] }
      [("id", JsVal.str "abc"), ("uid", JsVal.str "u1")]).1 (some (JsVal.str "abc")) = none :=
  session_remove_purges _ _ (JsVal.str "abc") (JsVal.str "u1") rfl (by decide) rfl

/-- C7: each call to `cleanupInactiveSessions` issues exactly one store
delete whose query selects exactly the records whose numeric `lastActive` is
older than `now - maxAge` or whose `lastActive` is missing; a delete error is
only appended to the log; and `lastRun` is set to `now` unconditionally, for
a failing delete as much as a successful one (session.js:63-75). -/
theorem sessionStore_cleanup_exact (w : World) (now : Int) (removeErr : Option String) :
    (SessionStore.cleanupInactiveSessions w now removeErr).2
      = [StoreOp.removeQ (cleanupQuery now w.maxAge)] ∧
    (SessionStore.cleanupInactiveSessions w now removeErr).1.lastRun = some now ∧
    (∀ rec : Obj, matchQ (cleanupQuery now w.maxAge) rec = true ↔
        ((∃ n : Int, alGet rec "lastActive" = some (JsVal.num n) ∧ n < now - w.maxAge)
          ∨ alGet rec "lastActive" = none)) ∧
    (SessionStore.cleanupInactiveSessions w now removeErr).1.store
      = (match removeErr with
         | none => w.store.filter (fun rec => !matchQ (cleanupQuery now w.maxAge) rec)
         | some _ => w.store) ∧
    (SessionStore.cleanupInactiveSessions w now removeErr).1.log
      = (match removeErr with
         | none => w.log
         | some e => w.log ++ ["Error removing old sessions: " ++ e]) := by
  refine ⟨?_, ?_, ?_, ?_, ?_⟩
  · cases removeErr <;> rfl
  · cases removeErr <;> rfl
  · intro rec
    cases hla : alGet rec "lastActive" with
    | none => simp [matchQ, cleanupQuery, matchCond, hla]
    | some v =>
      cases v with
      | num n => simp [matchQ, cleanupQuery, matchCond, hla]
      | bool b => simp [matchQ, cleanupQuery, matchCond, hla]
      | str s => simp [matchQ, cleanupQuery, matchCond, hla]
  · cases removeErr <;> rfl
  · cases removeErr <;> rfl

/-- C5: `save` on an anonymous session (anonymous flag set, no id) assigns
the identifier supply's next token as the record's `id`, removes the
`anonymous` flag, stores and returns that record, refreshes the in-memory
data from it, and leaves `isAnonymous()` falsy; the assigned id differs from
every token the supply produces at any other point (session.js:263-266,
269-279). -/
theorem session_save_anonymous (w : World) (oid : Nat) (st : SessState)
    (hst : alGet w.heap oid = some st)
    (hanon : alGet st.data "anonymous" = some (JsVal.bool true))
    (_hid : alGet st.data "id" = none) :
    (Session.save w oid).2.1
      = .ok (alSet (alDel st.data "anonymous") "id"
              (JsVal.str (SessionStore.createUniqueIdentifier w.nextGen))) ∧
    alGet (alSet (alDel st.data "anonymous") "id"
            (JsVal.str (SessionStore.createUniqueIdentifier w.nextGen))) "id"
      = some (JsVal.str (SessionStore.createUniqueIdentifier w.nextGen)) ∧
    alGet (alSet (alDel st.data "anonymous") "id"
            (JsVal.str (SessionStore.createUniqueIdentifier w.nextGen))) "anonymous"
      = none ∧
    sessData (Session.save w oid).1 oid
      = alSet (alDel st.data "anonymous") "id"
          (JsVal.str (SessionStore.createUniqueIdentifier w.nextGen)) ∧
    truthy (Session.isAnonymous (Session.save w oid).1 oid) = false ∧
    (∀ m : Nat, m ≠ w.nextGen →
      SessionStore.createUniqueIdentifier m
        ≠ SessionStore.createUniqueIdentifier w.nextGen) := by
  have hanonT : truthy (alGet st.data "anonymous") = true := by
    simp [truthy, hanon, truthyV]
  have hidt : truthyV (JsVal.str (SessionStore.createUniqueIdentifier w.nextGen)) = true := by
    simp [truthyV, bne_iff_ne]
    exact SessionStore.createUniqueIdentifier_ne_empty w.nextGen
  have hanonNone :
      alGet (alSet (alDel st.data "anonymous") "id"
        (JsVal.str (SessionStore.createUniqueIdentifier w.nextGen))) "anonymous" = none := by
    rw [alGet_alSet_ne _ _ _ _ (by decide)]
    exact alGet_alDel_self _ _
  have hred : (Session.save w oid).2.1
        = .ok (alSet (alDel st.data "anonymous") "id"
            (JsVal.str (SessionStore.createUniqueIdentifier w.nextGen)))
      ∧ sessData (Session.save w oid).1 oid
        = alSet (alDel st.data "anonymous") "id"
            (JsVal.str (SessionStore.createUniqueIdentifier w.nextGen)) := by
    by_cases huid : truthy (alGet (alSet (alDel st.data "anonymous") "id"
        (JsVal.str (SessionStore.createUniqueIdentifier w.nextGen))) "uid") = true
    · constructor <;>
        simp [Session.save, hst, hanonT, Session.remove, alGet_alSet_self, hidt,
              huid, sessData]
    · rw [Bool.not_eq_true] at huid
      constructor <;>
        simp [Session.save, hst, hanonT, Session.remove, alGet_alSet_self, hidt,
              huid, sessData]
  refine ⟨hred.1, alGet_alSet_self _ _ _, hanonNone, hred.2, ?_, ?_⟩
  · simp only [Session.isAnonymous, hred.2, hanonNone, truthy]
  · intro m hm
    exact SessionStore.createUniqueIdentifier_inj m w.nextGen hm

/-- C5 witness: a concrete anonymous session. -/
theorem session_save_anonymous_witness :
    (Session.save
      { sessionIndex := [], userSessionIndex := [], socketIndex := [],
        heap := [(0, { data := [("anonymous", JsVal.bool true), ("createdOn", JsVal.num 1),
                               ("lastActive", JsVal.num 1)],
                       ctorSid := none, sidProp := none,
                       bindQueue := [], emitQueue := [], armed := true })],
        nextObj := 1, nextGen := 0, store := [], maxAge := defaultMaxAge,
        lastRun := none, log := [] } 0).2.1
      = .ok [("createdOn", JsVal.num 1), ("lastActive", JsVal.num 1),
             ("id", JsVal.str (SessionStore.createUniqueIdentifier 0))] ∧
    truthy (Session.isAnonymous
      (Session.save
        { sessionIndex := [], userSessionIndex := [], socketIndex := [],
          heap := [(0, { data := [("anonymous", JsVal.bool true), ("createdOn", JsVal.num 1),
                                 ("lastActive", JsVal.num 1)],
                         ctorSid := none, sidProp := none,
                         bindQueue := [], emitQueue := [], armed := true })],
          nextObj := 1, nextGen := 0, store := [], maxAge := defaultMaxAge,
          lastRun := none, log := [] } 0).1 0) = false ∧
    SessionStore.createUniqueIdentifier 3 ≠ SessionStore.createUniqueIdentifier 0 := by
  have h := session_save_anonymous
    { sessionIndex := [], userSessionIndex := [], socketIndex := [],
      heap := [(0, { data := [("anonymous", JsVal.bool true), ("createdOn", JsVal.num 1),
                             ("lastActive", JsVal.num 1)],
                     ctorSid := none, sidProp := none,
                     bindQueue := [], emitQueue := [], armed := true })],
      nextObj := 1, nextGen := 0, store := [], maxAge := defaultMaxAge,
      lastRun := none, log := [] } 0
    { data := [("anonymous", JsVal.bool true), ("createdOn", JsVal.num 1),
               ("lastActive", JsVal.num 1)],
      ctorSid := none, sidProp := none,
      bindQueue := [], emitQueue := [], armed := true } rfl rfl rfl
  exact ⟨h.1, h.2.2.2.2.1, h.2.2.2.2.2 3 (by decide)⟩

/-- C4: at a concrete non-anonymous session (`id` `'abc'`, `uid` `'u1'`),
`save` succeeds, returns the saved record, updates the user index and the
in-memory data — but the session index afterwards has *no* entry for
`'abc'`: the internal `remove` deleted it and the insert callback wrote the
key `"undefined"` instead, because the hoisted `var sid` of
session.js:263-266 is only assigned in the anonymous branch
(session.js:259-282). -/
theorem session_save_nonanon_index_not_restored :
    (Session.save
      { sessionIndex := [("abc", 0)], userSessionIndex := [("u1", 0)], socketIndex := [],
        heap := [(0, { data := [("id", JsVal.str "abc"), ("uid", JsVal.str "u1"),
                               ("createdOn", JsVal.num 1), ("lastActive", JsVal.num 5)],
                       ctorSid := some (JsVal.str "abc"), sidProp := some (JsVal.str "abc"),
                       bindQueue := [], emitQueue := [], armed := true })],
        nextObj := 1, nextGen := 0,
        store := [[("id", JsVal.str "abc"), ("uid", JsVal.str "u1"),
                   ("createdOn", JsVal.num 1), ("lastActive", JsVal.num 5)]],
        maxAge := defaultMaxAge, lastRun := none, log := [] } 0).2.1
      = .ok [("id", JsVal.str "abc"), ("uid", JsVal.str "u1"),
             ("createdOn", JsVal.num 1), ("lastActive", JsVal.num 5)] ∧
    alGet (Session.save
      { sessionIndex := [("abc", 0)], userSessionIndex := [("u1", 0)], socketIndex := [],
        heap := [(0, { data := [("id", JsVal.str "abc"), ("uid", JsVal.str "u1"),
                               ("createdOn", JsVal.num 1), ("lastActive", JsVal.num 5)],
                       ctorSid := some (JsVal.str "abc"), sidProp := some (JsVal.str "abc"),
                       bindQueue := [], emitQueue := [], armed := true })],
        nextObj := 1, nextGen := 0,
        store := [[("id", JsVal.str "abc"), ("uid", JsVal.str "u1"),
                   ("createdOn", JsVal.num 1), ("lastActive", JsVal.num 5)]],
        maxAge := defaultMaxAge, lastRun := none, log := [] } 0).1.sessionIndex "abc"
      = none ∧
    alGet (Session.save
      { sessionIndex := [("abc", 0)], userSessionIndex := [("u1", 0)], socketIndex := [],
        heap := [(0, { data := [("id", JsVal.str "abc"), ("uid", JsVal.str "u1"),
                               ("createdOn", JsVal.num 1), ("lastActive", JsVal.num 5)],
                       ctorSid := some (JsVal.str "abc"), sidProp := some (JsVal.str "abc"),
                       bindQueue := [], emitQueue := [], armed := true })],
        nextObj := 1, nextGen := 0,
        store := [[("id", JsVal.str "abc"), ("uid", JsVal.str "u1"),
                   ("createdOn", JsVal.num 1), ("lastActive", JsVal.num 5)]],
        maxAge := defaultMaxAge, lastRun := none, log := [] } 0).1.sessionIndex "undefined"
      = some 0 ∧
    alGet (Session.save
      { sessionIndex := [("abc", 0)], userSessionIndex := [("u1", 0)], socketIndex := [],
        heap := [(0, { data := [("id", JsVal.str "abc"), ("uid", JsVal.str "u1"),
                               ("createdOn", JsVal.num 1), ("lastActive", JsVal.num 5)],
                       ctorSid := some (JsVal.str "abc"), sidProp := some (JsVal.str "abc"),
                       bindQueue := [], emitQueue := [], armed := true })],
        nextObj := 1, nextGen := 0,
        store := [[("id", JsVal.str "abc"), ("uid", JsVal.str "u1"),
                   ("createdOn", JsVal.num 1), ("lastActive", JsVal.num 5)]],
        maxAge := defaultMaxAge, lastRun := none, log := [] } 0).1.userSessionIndex "u1"
      = some 0 ∧
    sessData (Session.save
      { sessionIndex := [("abc", 0)], userSessionIndex := [("u1", 0)], socketIndex := [],
        heap := [(0, { data := [("id", JsVal.str "abc"), ("uid", JsVal.str "u1"),
                               ("createdOn", JsVal.num 1), ("lastActive", JsVal.num 5)],
                       ctorSid := some (JsVal.str "abc"), sidProp := some (JsVal.str "abc"),
                       bindQueue := [], emitQueue := [], armed := true })],
        nextObj := 1, nextGen := 0,
        store := [[("id", JsVal.str "abc"), ("uid", JsVal.str "u1"),
                   ("createdOn", JsVal.num 1), ("lastActive", JsVal.num 5)]],
        maxAge := defaultMaxAge, lastRun := none, log := [] } 0).1 0
      = [("id", JsVal.str "abc"), ("uid", JsVal.str "u1"),
         ("createdOn", JsVal.num 1), ("lastActive", JsVal.num 5)] := by
  exact ⟨rfl, by decide, by decide, by decide, by decide⟩

/-- C8 (amended): when the store's `first` yields a record, `fetch` merges it
into the in-memory data via `set` — fields absent from the fetched record
are kept, fields present take the fetched value — and the callback receives
`(null, record)`; when the store reports an error (which carries no record),
`session.set` throws a `TypeError` before the callback, so the error is not
surfaced through the callback (session.js:291-298). -/
theorem session_fetch_merges (d rec : Obj) (hnd : (rec.map Prod.fst).Nodup) :
    Session.fetchWith d (.ok (some rec)) = .ok (Session.set d rec, none, rec) ∧
    (∀ k, alGet rec k = none → alGet (Session.set d rec) k = alGet d k) ∧
    (∀ k v, alGet rec k = some v → alGet (Session.set d rec) k = some v) ∧
    (∀ e : String, Session.fetchWith d (.error e) = .error JsError.typeError) := by
  refine ⟨rfl, ?_, ?_, fun e => rfl⟩
  · intro k hk
    exact Session.set_keeps d rec k hk
  · intro k v hk
    exact Session.set_overrides d rec k v hnd hk

/-- C8 witness: a concrete merge (field `a` kept, field `b` overridden) and a
concrete store error. -/
theorem session_fetch_merges_witness :
    Session.fetchWith [("a", JsVal.num 1), ("b", JsVal.num 2)]
        (.ok (some [("b", JsVal.num 9), ("c", JsVal.num 3)]))
      = .ok ([("a", JsVal.num 1), ("b", JsVal.num 9), ("c", JsVal.num 3)], none,
             [("b", JsVal.num 9), ("c", JsVal.num 3)]) ∧
    alGet (Session.set [("a", JsVal.num 1), ("b", JsVal.num 2)]
            [("b", JsVal.num 9), ("c", JsVal.num 3)]) "a"
      = alGet [("a", JsVal.num 1), ("b", JsVal.num 2)] "a" ∧
    alGet (Session.set [("a", JsVal.num 1), ("b", JsVal.num 2)]
            [("b", JsVal.num 9), ("c", JsVal.num 3)]) "b" = some (JsVal.num 9) ∧
    Session.fetchWith [("a", JsVal.num 1), ("b", JsVal.num 2)] (.error "boom")
      = .error JsError.typeError := by
  have h := session_fetch_merges [("a", JsVal.num 1), ("b", JsVal.num 2)]
    [("b", JsVal.num 9), ("c", JsVal.num 3)] (by decide)
  exact ⟨h.1, h.2.1 "a" rfl, h.2.2.1 "b" (JsVal.num 9) rfl, h.2.2.2 "boom"⟩

/-- C8 counterexample: a store error `'boom'` is *not* surfaced to the
callback — `fetch` throws a `TypeError` from `session.set` instead, and the
callback never runs (so it cannot receive the error unmodified). -/
theorem session_fetch_error_swallowed :
    Session.fetchWith [("id", JsVal.str "abc")] (.error "boom")
      = .error JsError.typeError ∧
    ¬ ∃ out : Obj × Option String × Obj,
        Session.fetchWith [("id", JsVal.str "abc")] (.error "boom") = .ok out := by
  refine ⟨rfl, ?_⟩
  rintro ⟨out, h⟩
  simp [Session.fetchWith] at h

/-- C1 (amended): `createSession` with a non-empty `sid` demotes to an
anonymous session — callback session has `anonymous` set and no `id`, and no
store write is issued — when the store has no record for that id, or when the
record's `lastActive` is a number older than `now - maxAge`. (A record whose
`lastActive` is *missing* is not demoted: the JS comparison
`undefined < now - maxAge` at session.js:99 is false, so the identity is
kept; see the companion counterexample.) The two auxiliary hypotheses say
that the module caches hold no entry under the JS-coerced keys/ids this flow
touches (`sessionIndex['null']`, a fresh heap slot), which is how the source
process always runs. -/
theorem createSession_demotes_stale (w : World) (now : Int) (sid : String)
    (hsid : sid ≠ "")
    (hnull : alGet w.sessionIndex "null" = none)
    (hfresh : alGet w.heap w.nextObj = none)
    (hstale : storeFirstBy w (some (JsVal.str sid)) = none ∨
              ∃ r n, storeFirstBy w (some (JsVal.str sid)) = some r ∧
                     alGet r "lastActive" = some (JsVal.num n) ∧ n < now - w.maxAge) :
    (SessionStore.createSession w now (some sid)).2.1 = .ok w.nextObj ∧
    alGet (sessData (SessionStore.createSession w now (some sid)).1 w.nextObj) "anonymous"
      = some (JsVal.bool true) ∧
    alGet (sessData (SessionStore.createSession w now (some sid)).1 w.nextObj) "id" = none ∧
    (SessionStore.createSession w now (some sid)).2.2 = [StoreOp.find (JsVal.str sid)] := by
  have hbeq : (sid == "") = false := by
    cases h : sid == ""
    · rfl
    · exact absurd (eq_of_beq h) hsid
  have hnew : Session.new [("anonymous", JsVal.bool true)] now =
      { data := [("anonymous", JsVal.bool true), ("createdOn", JsVal.num now),
                 ("lastActive", JsVal.num now)],
        ctorSid := none, sidProp := none, bindQueue := [], emitQueue := [],
        armed := true } := rfl
  have halloc : alGet (w.heap ++ [(w.nextObj,
      ({ data := [("anonymous", JsVal.bool true), ("createdOn", JsVal.num now),
                  ("lastActive", JsVal.num now)],
         ctorSid := none, sidProp := none, bindQueue := [], emitQueue := [],
         armed := true } : SessState))]) w.nextObj
      = some { data := [("anonymous", JsVal.bool true), ("createdOn", JsVal.num now),
                        ("lastActive", JsVal.num now)],
               ctorSid := none, sidProp := none, bindQueue := [], emitQueue := [],
               armed := true } :=
    alGet_append_of_none _ _ _ hfresh
  have hW : SessionStore.createSession w now (some sid)
      = ({ w with
            heap := w.heap ++ [(w.nextObj,
              { data := [("anonymous", JsVal.bool true), ("createdOn", JsVal.num now),
                         ("lastActive", JsVal.num now)],
                ctorSid := none, sidProp := none, bindQueue := [], emitQueue := [],
                armed := true })],
            nextObj := w.nextObj + 1 },
         .ok w.nextObj, [StoreOp.find (JsVal.str sid)]) := by
    rcases hstale with hrec | ⟨r, n, hrec, hla, hlt⟩
    · simp [SessionStore.createSession, hbeq, createSessionWith, hrec, hnull,
            allocSession, hnew, halloc, truthy, truthyV, alGet]
    · have hjs : jsLt (alGet r "lastActive") (now - w.maxAge) = true := by
        simp [jsLt, hla, hlt]
      simp [SessionStore.createSession, hbeq, createSessionWith, hrec, hjs, hnull,
            allocSession, hnew, halloc, truthy, truthyV, alGet]
  rw [hW]
  refine ⟨rfl, ?_, ?_, rfl⟩
  · simp only [sessData, halloc]
    rfl
  · simp only [sessData, halloc]
    rfl

/-- C1 witness: a stale record (31 days old with `maxAge` 30 days) is
demoted to anonymous. -/
theorem createSession_demotes_stale_witness :
    (SessionStore.createSession
      { sessionIndex := [], userSessionIndex := [], socketIndex := [], heap := [],
        nextObj := 0, nextGen := 0,
        store := [[("id", JsVal.str "abc"),
                   ("lastActive", JsVal.num (-100))]],
        maxAge := defaultMaxAge, lastRun := none, log := [] } 2678400000 (some "abc")).2.1
      = .ok 0 ∧
    alGet (sessData (SessionStore.createSession
      { sessionIndex := [], userSessionIndex := [], socketIndex := [], heap := [],
        nextObj := 0, nextGen := 0,
        store := [[("id", JsVal.str "abc"),
                   ("lastActive", JsVal.num (-100))]],
        maxAge := defaultMaxAge, lastRun := none, log := [] } 2678400000 (some "abc")).1 0)
      "anonymous" = some (JsVal.bool true) ∧
    alGet (sessData (SessionStore.createSession
      { sessionIndex := [], userSessionIndex := [], socketIndex := [], heap := [],
        nextObj := 0, nextGen := 0,
        store := [[("id", JsVal.str "abc"),
                   ("lastActive", JsVal.num (-100))]],
        maxAge := defaultMaxAge, lastRun := none, log := [] } 2678400000 (some "abc")).1 0)
      "id" = none ∧
    (SessionStore.createSession
      { sessionIndex := [], userSessionIndex := [], socketIndex := [], heap := [],
        nextObj := 0, nextGen := 0,
        store := [[("id", JsVal.str "abc"),
                   ("lastActive", JsVal.num (-100))]],
        maxAge := defaultMaxAge, lastRun := none, log := [] } 2678400000 (some "abc")).2.2
      = [StoreOp.find (JsVal.str "abc")] :=
  createSession_demotes_stale _ 2678400000 "abc" (by decide) rfl rfl
    (Or.inr ⟨[("id", JsVal.str "abc"), ("lastActive", JsVal.num (-100))], -100,
      rfl, rfl, by decide⟩)

/-- C1 counterexample: a record whose `lastActive` field is missing is *not*
demoted — the callback's session keeps the id `'abc'` and is not anonymous,
because `undefined < Date.now() - maxAge` is false at session.js:99 (the
constructor then backfills `lastActive` with the current time). -/
theorem createSession_missing_lastActive_keeps_identity :
    alGet (sessData (SessionStore.createSession
      { sessionIndex := [], userSessionIndex := [], socketIndex := [], heap := [],
        nextObj := 0, nextGen := 0,
        store := [[("id", JsVal.str "abc")]],
        maxAge := defaultMaxAge, lastRun := none, log := [] } 1000 (some "abc")).1 0)
      "id" = some (JsVal.str "abc") ∧
    truthy (alGet (sessData (SessionStore.createSession
      { sessionIndex := [], userSessionIndex := [], socketIndex := [], heap := [],
        nextObj := 0, nextGen := 0,
        store := [[("id", JsVal.str "abc")]],
        maxAge := defaultMaxAge, lastRun := none, log := [] } 1000 (some "abc")).1 0)
      "anonymous") = false ∧
    (SessionStore.createSession
      { sessionIndex := [], userSessionIndex := [], socketIndex := [], heap := [],
        nextObj := 0, nextGen := 0,
        store := [[("id", JsVal.str "abc")]],
        maxAge := defaultMaxAge, lastRun := none, log := [] } 1000 (some "abc")).2.1
      = .ok 0 := by
  exact ⟨by decide, by decide, rfl⟩

/-- C10: `save` on a session whose data has a (truthy) `id` runs the
delete-then-insert sequence: the socket-index entry for that id is deleted by
the internal `remove` (session.js:328) *before* the insert, the insert
callback never restores it, and afterwards the connection wrapper's `on` and
`emit` calls for this previously-bound session buffer into the bind/emit
queues instead of passing through (session.js:167-191, 259-282). -/
theorem session_save_clears_socket_binding (w : World) (oid : Nat) (st : SessState)
    (s : String) (k : Nat)
    (hheap : alGet w.heap oid = some st)
    (hanon : truthy (alGet st.data "anonymous") = false)
    (hid : alGet st.data "id" = some (JsVal.str s))
    (hsne : s ≠ "")
    (hctor : st.ctorSid = some (JsVal.str s))
    (_hsock : alGet w.socketIndex s = some k) :
    (Session.save w oid).2.2
      = [StoreOp.removeQ (idQuery (JsVal.str s)), StoreOp.insert st.data] ∧
    alGet (Session.save w oid).1.socketIndex s = none ∧
    (∀ args, (socketWrapperOn (Session.save w oid).1 oid args).2 = [] ∧
       ∃ st₂, alGet (socketWrapperOn (Session.save w oid).1 oid args).1.heap oid = some st₂ ∧
              st₂.bindQueue = st.bindQueue ++ [args]) ∧
    (∀ args, (socketWrapperEmit (Session.save w oid).1 oid args).2 = [] ∧
       ∃ st₂, alGet (socketWrapperEmit (Session.save w oid).1 oid args).1.heap oid = some st₂ ∧
              st₂.emitQueue = st.emitQueue ++ [args]) := by
  have hidt : truthyV (JsVal.str s) = true := by
    simp [truthyV, bne_iff_ne]
    exact hsne
  have hW : Session.save w oid
      = ((if truthy (alGet st.data "uid") = true
          then { sessionIndex := alSet (alDel w.sessionIndex s) "undefined" oid,
                 userSessionIndex := alSet (alDel w.userSessionIndex
                     (undefKey (alGet st.data "uid"))) (undefKey (alGet st.data "uid")) oid,
                 socketIndex := alDel w.socketIndex s,
                 heap := alSet w.heap oid
                   { st with data := st.data, sidProp := alGet st.data "id" },
                 nextObj := w.nextObj, nextGen := w.nextGen,
                 store := (w.store.filter (fun r => !matchQ (idQuery (JsVal.str s)) r))
                            ++ [st.data],
                 maxAge := w.maxAge, lastRun := w.lastRun, log := w.log }
          else { sessionIndex := alSet (alDel w.sessionIndex s) "undefined" oid,
                 userSessionIndex := alDel w.userSessionIndex
                     (undefKey (alGet st.data "uid")),
                 socketIndex := alDel w.socketIndex s,
                 heap := alSet w.heap oid
                   { st with data := st.data, sidProp := alGet st.data "id" },
                 nextObj := w.nextObj, nextGen := w.nextGen,
                 store := (w.store.filter (fun r => !matchQ (idQuery (JsVal.str s)) r))
                            ++ [st.data],
                 maxAge := w.maxAge, lastRun := w.lastRun, log := w.log }),
         .ok st.data,
         [StoreOp.removeQ (idQuery (JsVal.str s)), StoreOp.insert st.data]) := by
    by_cases huid : truthy (alGet st.data "uid") = true
    · simp [Session.save, hheap, hanon, Session.remove, hid, hidt, huid, jsKey, undefKey]
    · rw [Bool.not_eq_true] at huid
      simp [Session.save, hheap, hanon, Session.remove, hid, hidt, huid, jsKey, undefKey]
  have hso : (Session.save w oid).1.socketIndex = alDel w.socketIndex s := by
    rw [hW]
    by_cases huid : truthy (alGet st.data "uid") = true <;> simp [huid]
  have hhp : (Session.save w oid).1.heap
      = alSet w.heap oid { st with data := st.data, sidProp := alGet st.data "id" } := by
    rw [hW]
    by_cases huid : truthy (alGet st.data "uid") = true <;> simp [huid]
  have hops : (Session.save w oid).2.2
      = [StoreOp.removeQ (idQuery (JsVal.str s)), StoreOp.insert st.data] := by
    rw [hW]
  have hget : alGet (Session.save w oid).1.heap oid
      = some { st with data := st.data, sidProp := alGet st.data "id" } := by
    rw [hhp]
    exact alGet_alSet_self _ _ _
  have hnone : alGet (Session.save w oid).1.socketIndex
      (undefKey ({ st with data := st.data, sidProp := alGet st.data "id" } : SessState).ctorSid)
      = none := by
    rw [hso]
    show alGet (alDel w.socketIndex s) (undefKey st.ctorSid) = none
    rw [hctor]
    show alGet (alDel w.socketIndex s) s = none
    exact alGet_alDel_self _ _
  refine ⟨hops, ?_, ?_, ?_⟩
  · rw [hso]
    exact alGet_alDel_self _ _
  · intro args
    refine ⟨?_, ⟨⟨st.data, st.ctorSid, alGet st.data "id",
        st.bindQueue ++ [args], st.emitQueue, st.armed⟩, ?_, rfl⟩⟩
    · simp [socketWrapperOn, hget, hnone]
    · simp only [socketWrapperOn, hget, hnone]
      exact alGet_alSet_self _ _ _
  · intro args
    refine ⟨?_, ⟨⟨st.data, st.ctorSid, alGet st.data "id",
        st.bindQueue, st.emitQueue ++ [args], st.armed⟩, ?_, rfl⟩⟩
    · simp [socketWrapperEmit, hget, hnone]
    · simp only [socketWrapperEmit, hget, hnone]
      exact alGet_alSet_self _ _ _

/-- C10 witness: a bound session (`socketIndex['abc'] = 7`) saved and then
probed with one `on` and one `emit` call. -/
theorem session_save_clears_socket_binding_witness :
    (Session.save
      { sessionIndex := [("abc", 0)], userSessionIndex := [], socketIndex := [("abc", 7)],
        heap := [(0, { data := [("id", JsVal.str "abc"), ("lastActive", JsVal.num 5)],
                       ctorSid := some (JsVal.str "abc"), sidProp := some (JsVal.str "abc"),
                       bindQueue := [], emitQueue := [], armed := false })],
        nextObj := 1, nextGen := 0,
        store := [[("id", JsVal.str "abc"), ("lastActive", JsVal.num 5)]],
        maxAge := defaultMaxAge, lastRun := none, log := [] } 0).2.2
      = [StoreOp.removeQ (idQuery (JsVal.str "abc")),
         StoreOp.insert [("id", JsVal.str "abc"), ("lastActive", JsVal.num 5)]] ∧
    alGet (Session.save
      { sessionIndex := [("abc", 0)], userSessionIndex := [], socketIndex := [("abc", 7)],
        heap := [(0, { data := [("id", JsVal.str "abc"), ("lastActive", JsVal.num 5)],
                       ctorSid := some (JsVal.str "abc"), sidProp := some (JsVal.str "abc"),
                       bindQueue := [], emitQueue := [], armed := false })],
        nextObj := 1, nextGen := 0,
        store := [[("id", JsVal.str "abc"), ("lastActive", JsVal.num 5)]],
        maxAge := defaultMaxAge, lastRun := none, log := [] } 0).1.socketIndex "abc"
      = none ∧
    ((socketWrapperOn (Session.save
      { sessionIndex := [("abc", 0)], userSessionIndex := [], socketIndex := [("abc", 7)],
        heap := [(0, { data := [("id", JsVal.str "abc"), ("lastActive", JsVal.num 5)],
                       ctorSid := some (JsVal.str "abc"), sidProp := some (JsVal.str "abc"),
                       bindQueue := [], emitQueue := [], armed := false })],
        nextObj := 1, nextGen := 0,
        store := [[("id", JsVal.str "abc"), ("lastActive", JsVal.num 5)]],
        maxAge := defaultMaxAge, lastRun := none, log := [] } 0).1 0 [JsVal.str "x"]).2 = [] ∧
      ∃ st₂, alGet (socketWrapperOn (Session.save
        { sessionIndex := [("abc", 0)], userSessionIndex := [], socketIndex := [("abc", 7)],
          heap := [(0, { data := [("id", JsVal.str "abc"), ("lastActive", JsVal.num 5)],
                         ctorSid := some (JsVal.str "abc"), sidProp := some (JsVal.str "abc"),
                         bindQueue := [], emitQueue := [], armed := false })],
          nextObj := 1, nextGen := 0,
          store := [[("id", JsVal.str "abc"), ("lastActive", JsVal.num 5)]],
          maxAge := defaultMaxAge, lastRun := none, log := [] } 0).1 0
          [JsVal.str "x"]).1.heap 0 = some st₂ ∧
        st₂.bindQueue = [] ++ [[JsVal.str "x"]]) ∧
    ((socketWrapperEmit (Session.save
      { sessionIndex := [("abc", 0)], userSessionIndex := [], socketIndex := [("abc", 7)],
        heap := [(0, { data := [("id", JsVal.str "abc"), ("lastActive", JsVal.num 5)],
                       ctorSid := some (JsVal.str "abc"), sidProp := some (JsVal.str "abc"),
                       bindQueue := [], emitQueue := [], armed := false })],
        nextObj := 1, nextGen := 0,
        store := [[("id", JsVal.str "abc"), ("lastActive", JsVal.num 5)]],
        maxAge := defaultMaxAge, lastRun := none, log := [] } 0).1 0 [JsVal.str "y"]).2 = [] ∧
      ∃ st₂, alGet (socketWrapperEmit (Session.save
        { sessionIndex := [("abc", 0)], userSessionIndex := [], socketIndex := [("abc", 7)],
          heap := [(0, { data := [("id", JsVal.str "abc"), ("lastActive", JsVal.num 5)],
                         ctorSid := some (JsVal.str "abc"), sidProp := some (JsVal.str "abc"),
                         bindQueue := [], emitQueue := [], armed := false })],
          nextObj := 1, nextGen := 0,
          store := [[("id", JsVal.str "abc"), ("lastActive", JsVal.num 5)]],
          maxAge := defaultMaxAge, lastRun := none, log := [] } 0).1 0
          [JsVal.str "y"]).1.heap 0 = some st₂ ∧
        st₂.emitQueue = [] ++ [[JsVal.str "y"]]) := by
  have h := session_save_clears_socket_binding
    { sessionIndex := [("abc", 0)], userSessionIndex := [], socketIndex := [("abc", 7)],
      heap := [(0, { data := [("id", JsVal.str "abc"), ("lastActive", JsVal.num 5)],
                     ctorSid := some (JsVal.str "abc"), sidProp := some (JsVal.str "abc"),
                     bindQueue := [], emitQueue := [], armed := false })],
      nextObj := 1, nextGen := 0,
      store := [[("id", JsVal.str "abc"), ("lastActive", JsVal.num 5)]],
      maxAge := defaultMaxAge, lastRun := none, log := [] } 0
    { data := [("id", JsVal.str "abc"), ("lastActive", JsVal.num 5)],
      ctorSid := some (JsVal.str "abc"), sidProp := some (JsVal.str "abc"),
      bindQueue := [], emitQueue := [], armed := false } "abc" 7
    rfl rfl rfl (by decide) rfl rfl
  exact ⟨h.1, h.2.1, h.2.2.1 [JsVal.str "x"], h.2.2.2 [JsVal.str "y"]⟩

/-- C2: for a fresh session (one-shot listener armed, empty queues) whose id
has no live socket yet, subscribe calls `A`, `B` and emit calls `X`, `Y` are
all buffered (nothing delivered); when a connection with the matching id
attaches, `A` and `B` are replayed as `on` calls in order, then `X` and `Y`
as `emit` calls in order; a second attachment for the same id delivers
nothing from this session (the `once` listener is gone); and once a live
socket is in the socket index, `on`/`emit` go straight through, unchanged
world, nothing buffered (session.js:36-47, 167-191, 219-232). -/
theorem session_binding_queue_order (w : World) (oid : Nat) (d : Obj)
    (sp : Option JsVal) (sid : String) (k k' : Nat) (A B X Y : List JsVal)
    (hheap : w.heap = [(oid, { data := d, ctorSid := some (JsVal.str sid),
                               sidProp := sp, bindQueue := [], emitQueue := [],
                               armed := true })])
    (hne : sid ≠ "")
    (hsock : alGet w.socketIndex sid = none) :
    let s1 := socketWrapperOn w oid A
    let s2 := socketWrapperOn s1.1 oid B
    let s3 := socketWrapperEmit s2.1 oid X
    let s4 := socketWrapperEmit s3.1 oid Y
    let s5 := connectionArrives s4.1 sid k
    s1.2 = [] ∧ s2.2 = [] ∧ s3.2 = [] ∧ s4.2 = [] ∧
    s5.2 = [Delivery.onEv k A, Delivery.onEv k B,
            Delivery.emitEv k X, Delivery.emitEv k Y] ∧
    (connectionArrives s5.1 sid k').2 = [] ∧
    (∀ Z, socketWrapperOn s5.1 oid Z = (s5.1, [Delivery.onEv k Z])) ∧
    (∀ Z, socketWrapperEmit s5.1 oid Z = (s5.1, [Delivery.emitEv k Z])) := by
  have hbeq : (sid == "") = false := by
    cases h : sid == ""
    · rfl
    · exact absurd (eq_of_beq h) hne
  have h1 : socketWrapperOn w oid A
      = ({ w with heap := [(oid, { data := d, ctorSid := some (JsVal.str sid),
                                   sidProp := sp, bindQueue := [A], emitQueue := [],
                                   armed := true })] }, []) := by
    simp [socketWrapperOn, hheap, alGet, alSet, undefKey, jsKey, hsock]
  have h2 : socketWrapperOn
        ({ w with heap := [(oid, { data := d, ctorSid := some (JsVal.str sid),
                                   sidProp := sp, bindQueue := [A], emitQueue := [],
                                   armed := true })] } : World) oid B
      = ({ w with heap := [(oid, { data := d, ctorSid := some (JsVal.str sid),
                                   sidProp := sp, bindQueue := [A, B], emitQueue := [],
                                   armed := true })] }, []) := by
    simp [socketWrapperOn, alGet, alSet, undefKey, jsKey, hsock]
  have h3 : socketWrapperEmit
        ({ w with heap := [(oid, { data := d, ctorSid := some (JsVal.str sid),
                                   sidProp := sp, bindQueue := [A, B], emitQueue := [],
                                   armed := true })] } : World) oid X
      = ({ w with heap := [(oid, { data := d, ctorSid := some (JsVal.str sid),
                                   sidProp := sp, bindQueue := [A, B], emitQueue := [X],
                                   armed := true })] }, []) := by
    simp [socketWrapperEmit, alGet, alSet, undefKey, jsKey, hsock]
  have h4 : socketWrapperEmit
        ({ w with heap := [(oid, { data := d, ctorSid := some (JsVal.str sid),
                                   sidProp := sp, bindQueue := [A, B], emitQueue := [X],
                                   armed := true })] } : World) oid Y
      = ({ w with heap := [(oid, { data := d, ctorSid := some (JsVal.str sid),
                                   sidProp := sp, bindQueue := [A, B], emitQueue := [X, Y],
                                   armed := true })] }, []) := by
    simp [socketWrapperEmit, alGet, alSet, undefKey, jsKey, hsock]
  have h5 : connectionArrives
        ({ w with heap := [(oid, { data := d, ctorSid := some (JsVal.str sid),
                                   sidProp := sp, bindQueue := [A, B], emitQueue := [X, Y],
                                   armed := true })] } : World) sid k
      = ({ w with socketIndex := alSet w.socketIndex sid k,
                  heap := [(oid, { data := d, ctorSid := some (JsVal.str sid),
                                   sidProp := sp, bindQueue := [A, B], emitQueue := [X, Y],
                                   armed := false })] },
         [Delivery.onEv k A, Delivery.onEv k B,
          Delivery.emitEv k X, Delivery.emitEv k Y]) := by
    simp [connectionArrives, hbeq, drainHeap, undefKey, jsKey]
  have h6 : (connectionArrives
        ({ w with socketIndex := alSet w.socketIndex sid k,
                  heap := [(oid, { data := d, ctorSid := some (JsVal.str sid),
                                   sidProp := sp, bindQueue := [A, B], emitQueue := [X, Y],
                                   armed := false })] } : World) sid k').2 = [] := by
    simp [connectionArrives, hbeq, drainHeap, undefKey, jsKey]
  have h7 : ∀ Z, socketWrapperOn
        ({ w with socketIndex := alSet w.socketIndex sid k,
                  heap := [(oid, { data := d, ctorSid := some (JsVal.str sid),
                                   sidProp := sp, bindQueue := [A, B], emitQueue := [X, Y],
                                   armed := false })] } : World) oid Z
      = (({ w with socketIndex := alSet w.socketIndex sid k,
                   heap := [(oid, { data := d, ctorSid := some (JsVal.str sid),
                                    sidProp := sp, bindQueue := [A, B], emitQueue := [X, Y],
                                    armed := false })] } : World), [Delivery.onEv k Z]) := by
    intro Z
    simp [socketWrapperOn, alGet, undefKey, jsKey, alGet_alSet_self]
  have h8 : ∀ Z, socketWrapperEmit
        ({ w with socketIndex := alSet w.socketIndex sid k,
                  heap := [(oid, { data := d, ctorSid := some (JsVal.str sid),
                                   sidProp := sp, bindQueue := [A, B], emitQueue := [X, Y],
                                   armed := false })] } : World) oid Z
      = (({ w with socketIndex := alSet w.socketIndex sid k,
                   heap := [(oid, { data := d, ctorSid := some (JsVal.str sid),
                                    sidProp := sp, bindQueue := [A, B], emitQueue := [X, Y],
                                    armed := false })] } : World), [Delivery.emitEv k Z]) := by
    intro Z
    simp [socketWrapperEmit, alGet, undefKey, jsKey, alGet_alSet_self]
  refine ⟨?_, ?_, ?_, ?_, ?_, ?_, ?_, ?_⟩
  · simp only [h1]
  · simp only [h1, h2]
  · simp only [h1, h2, h3]
  · simp only [h1, h2, h3, h4]
  · simp only [h1, h2, h3, h4, h5]
  · simp only [h1, h2, h3, h4, h5]
    exact h6
  · simp only [h1, h2, h3, h4, h5]
    exact h7
  · simp only [h1, h2, h3, h4, h5]
    exact h8

/-- C2 witness: a concrete fresh session for id `'s1'`, two subscribes and
two emits buffered, then a connection (socket 7) attaching, a second
attachment (socket 8), and direct pass-through probes. -/
theorem session_binding_queue_order_witness :
    let w : World := { sessionIndex := [("s1", 0)], userSessionIndex := [], socketIndex := [],
                       heap := [(0, { data := [("id", JsVal.str "s1")],
                                      ctorSid := some (JsVal.str "s1"),
                                      sidProp := some (JsVal.str "s1"),
                                      bindQueue := [], emitQueue := [], armed := true })],
                       nextObj := 1, nextGen := 0, store := [[("id", JsVal.str "s1")]],
                       maxAge := defaultMaxAge, lastRun := none, log := [] }
    let s1 := socketWrapperOn w 0 [JsVal.str "a"]
    let s2 := socketWrapperOn s1.1 0 [JsVal.str "b"]
    let s3 := socketWrapperEmit s2.1 0 [JsVal.str "x"]
    let s4 := socketWrapperEmit s3.1 0 [JsVal.str "y"]
    let s5 := connectionArrives s4.1 "s1" 7
    s1.2 = [] ∧ s2.2 = [] ∧ s3.2 = [] ∧ s4.2 = [] ∧
    s5.2 = [Delivery.onEv 7 [JsVal.str "a"], Delivery.onEv 7 [JsVal.str "b"],
            Delivery.emitEv 7 [JsVal.str "x"], Delivery.emitEv 7 [JsVal.str "y"]] ∧
    (connectionArrives s5.1 "s1" 8).2 = [] ∧
    socketWrapperOn s5.1 0 [JsVal.str "z"] = (s5.1, [Delivery.onEv 7 [JsVal.str "z"]]) ∧
    socketWrapperEmit s5.1 0 [JsVal.str "z"] = (s5.1, [Delivery.emitEv 7 [JsVal.str "z"]]) := by
  have h := session_binding_queue_order
    { sessionIndex := [("s1", 0)], userSessionIndex := [], socketIndex := [],
      heap := [(0, { data := [("id", JsVal.str "s1")],
                     ctorSid := some (JsVal.str "s1"),
                     sidProp := some (JsVal.str "s1"),
                     bindQueue := [], emitQueue := [], armed := true })],
      nextObj := 1, nextGen := 0, store := [[("id", JsVal.str "s1")]],
      maxAge := defaultMaxAge, lastRun := none, log := [] }
    0 [("id", JsVal.str "s1")] (some (JsVal.str "s1")) "s1" 7 8
    [JsVal.str "a"] [JsVal.str "b"] [JsVal.str "x"] [JsVal.str "y"]
    rfl (by decide) rfl
  exact ⟨h.1, h.2.1, h.2.2.1, h.2.2.2.1, h.2.2.2.2.1, h.2.2.2.2.2.1,
         h.2.2.2.2.2.2.1 [JsVal.str "z"], h.2.2.2.2.2.2.2 [JsVal.str "z"]⟩

/-- C3: the `lastActive` write throttle of `createSession`
(session.js:109-117). Part 1: a cached, non-anonymous session whose
`lastActive` is truthy and not older than 10 seconds fires the callback with
the cached session and issues no store write (only the lookup). Part 2: when
`lastActive` is falsy or older than 10 seconds, it is set to `now`, the
session is saved (remove + insert of the updated record, issued before the
callback completes) and the callback still receives the cached session.
Part 3: two back-to-back calls for the same fresh-and-active id both return
the *same* cached session object and neither issues any write. -/
theorem createSession_write_throttle :
    (∀ (w : World) (now : Int) (sid : String) (oid : Nat) (st : SessState) (r : Obj),
      sid ≠ "" →
      alGet w.sessionIndex sid = some oid →
      alGet w.heap oid = some st →
      truthy (alGet st.data "anonymous") = false →
      storeFirstBy w (some (JsVal.str sid)) = some r →
      jsLt (alGet r "lastActive") (now - w.maxAge) = false →
      truthy (alGet st.data "lastActive") = true →
      jsLt (alGet st.data "lastActive") (now - 10 * 1000) = false →
      (SessionStore.createSession w now (some sid)).2.1 = .ok oid ∧
      (SessionStore.createSession w now (some sid)).2.2
        = [StoreOp.find (JsVal.str sid)]) ∧
    (∀ (w : World) (now : Int) (sid : String) (oid : Nat) (st : SessState)
        (r : Obj) (idv : JsVal),
      sid ≠ "" →
      alGet w.sessionIndex sid = some oid →
      alGet w.heap oid = some st →
      truthy (alGet st.data "anonymous") = false →
      storeFirstBy w (some (JsVal.str sid)) = some r →
      jsLt (alGet r "lastActive") (now - w.maxAge) = false →
      alGet st.data "id" = some idv →
      truthyV idv = true →
      (truthy (alGet st.data "lastActive") = false ∨
        jsLt (alGet st.data "lastActive") (now - 10 * 1000) = true) →
      ((SessionStore.createSession w now (some sid)).2.1 = .ok oid ∧
       (SessionStore.createSession w now (some sid)).2.2
         = [StoreOp.find (JsVal.str sid), StoreOp.removeQ (idQuery idv),
            StoreOp.insert (alSet st.data "lastActive" (JsVal.num now))] ∧
       sessData (SessionStore.createSession w now (some sid)).1 oid
         = alSet st.data "lastActive" (JsVal.num now) ∧
       alGet (alSet st.data "lastActive" (JsVal.num now)) "lastActive"
         = some (JsVal.num now) ∧
       alSet st.data "lastActive" (JsVal.num now)
         ∈ (SessionStore.createSession w now (some sid)).1.store)) ∧
    (∀ (w : World) (now1 now2 : Int) (sid : String) (oid : Nat) (st : SessState) (r : Obj),
      sid ≠ "" →
      alGet w.sessionIndex sid = some oid →
      alGet w.heap oid = some st →
      truthy (alGet st.data "anonymous") = false →
      storeFirstBy w (some (JsVal.str sid)) = some r →
      jsLt (alGet r "lastActive") (now1 - w.maxAge) = false →
      truthy (alGet st.data "lastActive") = true →
      jsLt (alGet st.data "lastActive") (now1 - 10 * 1000) = false →
      jsLt (alGet r "lastActive") (now2 - w.maxAge) = false →
      jsLt (alGet st.data "lastActive") (now2 - 10 * 1000) = false →
      ((SessionStore.createSession w now1 (some sid)).2.1 = .ok oid ∧
       (SessionStore.createSession w now1 (some sid)).2.2
         = [StoreOp.find (JsVal.str sid)] ∧
       (SessionStore.createSession
          (SessionStore.createSession w now1 (some sid)).1 now2 (some sid)).2.1
         = .ok oid ∧
       (SessionStore.createSession
          (SessionStore.createSession w now1 (some sid)).1 now2 (some sid)).2.2
         = [StoreOp.find (JsVal.str sid)])) := by
  refine ⟨?_, ?_, ?_⟩
  · intro w now sid oid st r hsid hcache hheap hanon hrec hstale hla hlt
    have hbeq : (sid == "") = false := by
      cases h : sid == ""
      · rfl
      · exact absurd (eq_of_beq h) hsid
    have hlt' : jsLt (alGet st.data "lastActive") (now - 10000) = false := by
      simpa using hlt
    by_cases huid : truthy (alGet r "uid") = true
    · constructor <;>
        simp [SessionStore.createSession, hbeq, createSessionWith, hrec, hstale, hcache,
              huid, hheap, hanon, hla, hlt']
    · rw [Bool.not_eq_true] at huid
      constructor <;>
        simp [SessionStore.createSession, hbeq, createSessionWith, hrec, hstale, hcache,
              huid, hheap, hanon, hla, hlt']
  · intro w now sid oid st r idv hsid hcache hheap hanon hrec hstale hid hidt hcond
    have hbeq : (sid == "") = false := by
      cases h : sid == ""
      · rfl
      · exact absurd (eq_of_beq h) hsid
    have hanon' : alGet (alSet st.data "lastActive" (JsVal.num now)) "anonymous"
        = alGet st.data "anonymous" := alGet_alSet_ne _ _ _ _ (by decide)
    have hid' : alGet (alSet st.data "lastActive" (JsVal.num now)) "id" = some idv := by
      rw [alGet_alSet_ne _ _ _ _ (by decide)]
      exact hid
    have hud : alGet (alSet st.data "lastActive" (JsVal.num now)) "uid"
        = alGet st.data "uid" := alGet_alSet_ne _ _ _ _ (by decide)
    have hcondP : truthy (alGet st.data "lastActive") = false ∨
        jsLt (alGet st.data "lastActive") (now - 10000) = true := by
      simpa using hcond
    by_cases huid : truthy (alGet r "uid") = true
    · by_cases huid2 : truthy (alGet st.data "uid") = true
      · refine ⟨?_, ?_, ?_, alGet_alSet_self _ _ _, ?_⟩ <;>
          simp [SessionStore.createSession, hbeq, createSessionWith, hrec, hstale, hcache,
                hheap, hanon, hcondP, Session.save, hanon', hid', hud, huid, huid2, hidt,
                Session.remove, sessData, List.mem_append]
      · rw [Bool.not_eq_true] at huid2
        refine ⟨?_, ?_, ?_, alGet_alSet_self _ _ _, ?_⟩ <;>
          simp [SessionStore.createSession, hbeq, createSessionWith, hrec, hstale, hcache,
                hheap, hanon, hcondP, Session.save, hanon', hid', hud, huid, huid2, hidt,
                Session.remove, sessData, List.mem_append]
    · rw [Bool.not_eq_true] at huid
      by_cases huid2 : truthy (alGet st.data "uid") = true
      · refine ⟨?_, ?_, ?_, alGet_alSet_self _ _ _, ?_⟩ <;>
          simp [SessionStore.createSession, hbeq, createSessionWith, hrec, hstale, hcache,
                hheap, hanon, hcondP, Session.save, hanon', hid', hud, huid, huid2, hidt,
                Session.remove, sessData, List.mem_append]
      · rw [Bool.not_eq_true] at huid2
        refine ⟨?_, ?_, ?_, alGet_alSet_self _ _ _, ?_⟩ <;>
          simp [SessionStore.createSession, hbeq, createSessionWith, hrec, hstale, hcache,
                hheap, hanon, hcondP, Session.save, hanon', hid', hud, huid, huid2, hidt,
                Session.remove, sessData, List.mem_append]
  · intro w now1 now2 sid oid st r hsid hcache hheap hanon hrec hstale1 hla hlt1 hstale2 hlt2
    have hbeq : (sid == "") = false := by
      cases h : sid == ""
      · rfl
      · exact absurd (eq_of_beq h) hsid
    have hlt1' : jsLt (alGet st.data "lastActive") (now1 - 10000) = false := by
      simpa using hlt1
    have hlt2' : jsLt (alGet st.data "lastActive") (now2 - 10000) = false := by
      simpa using hlt2
    by_cases huid : truthy (alGet r "uid") = true
    · have hW1 : SessionStore.createSession w now1 (some sid)
          = ({ w with sessionIndex := alSet w.sessionIndex sid oid,
                      userSessionIndex :=
                        alSet w.userSessionIndex (undefKey (alGet r "uid")) oid },
             .ok oid, [StoreOp.find (JsVal.str sid)]) := by
        simp [SessionStore.createSession, hbeq, createSessionWith, hrec, hstale1, hcache,
              huid, hheap, hanon, hla, hlt1']
      have hrec2 : storeFirstBy
          ({ w with sessionIndex := alSet w.sessionIndex sid oid,
                    userSessionIndex :=
                      alSet w.userSessionIndex (undefKey (alGet r "uid")) oid } : World)
          (some (JsVal.str sid)) = some r := hrec
      have hcache2 : alGet (alSet w.sessionIndex sid oid) sid = some oid :=
        alGet_alSet_self _ _ _
      refine ⟨?_, ?_, ?_, ?_⟩
      · rw [hW1]
      · rw [hW1]
      · rw [hW1]
        simp [SessionStore.createSession, hbeq, createSessionWith, hrec2, hstale2,
              hcache2, huid, hheap, hanon, hla, hlt2']
      · rw [hW1]
        simp [SessionStore.createSession, hbeq, createSessionWith, hrec2, hstale2,
              hcache2, huid, hheap, hanon, hla, hlt2']
    · rw [Bool.not_eq_true] at huid
      have hW1 : SessionStore.createSession w now1 (some sid)
          = ({ w with sessionIndex := alSet w.sessionIndex sid oid },
             .ok oid, [StoreOp.find (JsVal.str sid)]) := by
        simp [SessionStore.createSession, hbeq, createSessionWith, hrec, hstale1, hcache,
              huid, hheap, hanon, hla, hlt1']
      have hrec2 : storeFirstBy
          ({ w with sessionIndex := alSet w.sessionIndex sid oid } : World)
          (some (JsVal.str sid)) = some r := hrec
      have hcache2 : alGet (alSet w.sessionIndex sid oid) sid = some oid :=
        alGet_alSet_self _ _ _
      refine ⟨?_, ?_, ?_, ?_⟩
      · rw [hW1]
      · rw [hW1]
      · rw [hW1]
        simp [SessionStore.createSession, hbeq, createSessionWith, hrec2, hstale2,
              hcache2, huid, hheap, hanon, hla, hlt2']
      · rw [hW1]
        simp [SessionStore.createSession, hbeq, createSessionWith, hrec2, hstale2,
              hcache2, huid, hheap, hanon, hla, hlt2']

/-- C3 witness: part 1 and part 3 at a fresh-and-active cached session
(`lastActive` 5000, calls at 6000 and 7000 — inside the 10s window, no
write); part 2 at a session whose `lastActive` (100) is older than 10s at
time 20000 (one remove+insert, `lastActive` bumped to 20000, before the
callback). -/
theorem createSession_write_throttle_witness :
    let w1 : World := { sessionIndex := [("s1", 0)], userSessionIndex := [], socketIndex := [],
                        heap := [(0, { data := [("id", JsVal.str "s1"),
                                               ("lastActive", JsVal.num 5000)],
                                       ctorSid := some (JsVal.str "s1"),
                                       sidProp := some (JsVal.str "s1"),
                                       bindQueue := [], emitQueue := [], armed := true })],
                        nextObj := 1, nextGen := 0,
                        store := [[("id", JsVal.str "s1"), ("lastActive", JsVal.num 5000)]],
                        maxAge := defaultMaxAge, lastRun := none, log := [] }
    let w2 : World := { sessionIndex := [("s2", 0)], userSessionIndex := [], socketIndex := [],
                        heap := [(0, { data := [("id", JsVal.str "s2"),
                                               ("lastActive", JsVal.num 100)],
                                       ctorSid := some (JsVal.str "s2"),
                                       sidProp := some (JsVal.str "s2"),
                                       bindQueue := [], emitQueue := [], armed := true })],
                        nextObj := 1, nextGen := 0,
                        store := [[("id", JsVal.str "s2"), ("lastActive", JsVal.num 100)]],
                        maxAge := defaultMaxAge, lastRun := none, log := [] }
    ((SessionStore.createSession w1 6000 (some "s1")).2.1 = .ok 0 ∧
     (SessionStore.createSession w1 6000 (some "s1")).2.2
       = [StoreOp.find (JsVal.str "s1")]) ∧
    ((SessionStore.createSession w2 20000 (some "s2")).2.1 = .ok 0 ∧
     (SessionStore.createSession w2 20000 (some "s2")).2.2
       = [StoreOp.find (JsVal.str "s2"), StoreOp.removeQ (idQuery (JsVal.str "s2")),
          StoreOp.insert (alSet [("id", JsVal.str "s2"), ("lastActive", JsVal.num 100)]
            "lastActive" (JsVal.num 20000))] ∧
     sessData (SessionStore.createSession w2 20000 (some "s2")).1 0
       = alSet [("id", JsVal.str "s2"), ("lastActive", JsVal.num 100)]
           "lastActive" (JsVal.num 20000) ∧
     alGet (alSet [("id", JsVal.str "s2"), ("lastActive", JsVal.num 100)]
             "lastActive" (JsVal.num 20000)) "lastActive" = some (JsVal.num 20000) ∧
     alSet [("id", JsVal.str "s2"), ("lastActive", JsVal.num 100)]
         "lastActive" (JsVal.num 20000)
       ∈ (SessionStore.createSession w2 20000 (some "s2")).1.store) ∧
    ((SessionStore.createSession w1 6000 (some "s1")).2.1 = .ok 0 ∧
     (SessionStore.createSession w1 6000 (some "s1")).2.2
       = [StoreOp.find (JsVal.str "s1")] ∧
     (SessionStore.createSession
        (SessionStore.createSession w1 6000 (some "s1")).1 7000 (some "s1")).2.1
       = .ok 0 ∧
     (SessionStore.createSession
        (SessionStore.createSession w1 6000 (some "s1")).1 7000 (some "s1")).2.2
       = [StoreOp.find (JsVal.str "s1")]) := by
  intro w1 w2
  have h := createSession_write_throttle
  refine ⟨?_, ?_, ?_⟩
  · exact h.1 w1 6000 "s1" 0
      { data := [("id", JsVal.str "s1"), ("lastActive", JsVal.num 5000)],
        ctorSid := some (JsVal.str "s1"), sidProp := some (JsVal.str "s1"),
        bindQueue := [], emitQueue := [], armed := true }
      [("id", JsVal.str "s1"), ("lastActive", JsVal.num 5000)]
      (by decide) rfl rfl rfl rfl (by decide) (by decide) (by decide)
  · exact h.2.1 w2 20000 "s2" 0
      { data := [("id", JsVal.str "s2"), ("lastActive", JsVal.num 100)],
        ctorSid := some (JsVal.str "s2"), sidProp := some (JsVal.str "s2"),
        bindQueue := [], emitQueue := [], armed := true }
      [("id", JsVal.str "s2"), ("lastActive", JsVal.num 100)]
      (JsVal.str "s2")
      (by decide) rfl rfl rfl rfl (by decide) rfl (by decide)
      (Or.inr (by decide))
  · exact h.2.2 w1 6000 7000 "s1" 0
      { data := [("id", JsVal.str "s1"), ("lastActive", JsVal.num 5000)],
        ctorSid := some (JsVal.str "s1"), sidProp := some (JsVal.str "s1"),
        bindQueue := [], emitQueue := [], armed := true }
      [("id", JsVal.str "s1"), ("lastActive", JsVal.num 5000)]
      (by decide) rfl rfl rfl rfl (by decide) (by decide) (by decide)
      (by decide) (by decide)
